import Mathlib

/-!
Verification of `src/js/chemistry.js` (titration-lab).

The repository file `chemistry.js` contains two variants of the pH solver:
a piecewise Henderson–Hasselbalch variant (modelled in namespace `V1`) and
a charge-balance bisection variant (modelled in namespace `V2`; the spec
adopts this one as the reference design).  JavaScript numbers are modelled
by real numbers; `Math.log10` is modelled by an `EReal`-valued function so
that `Math.log10 0 = -∞` (the IEEE value the code's clamp relies on), and
`clampPH` maps `EReal` back into the real interval `[0, 14]` exactly as
`Math.min(Math.max(x, 0), 14)` does on IEEE values.
-/

namespace Titration

/-- `Kw = 1e-14`, identical in both variants of `chemistry.js`. -/
noncomputable def Kw : ℝ := 1e-14

/-- Model of JavaScript `Math.log10`.  For `x = 0` JavaScript returns
`-Infinity`, modelled as `⊥ : EReal`; for `x ≠ 0` we use `Real.logb 10 x`
(for `x < 0` JavaScript returns NaN; the solvers never reach `Math.log10`
with a negative argument on well-formed states, and `Real.logb` supplies a
junk real value there). -/
noncomputable def jsLog10 (x : ℝ) : EReal :=
  if x = 0 then ⊥ else ((Real.logb 10 x : ℝ) : EReal)

/-- `clampPH(x) = Math.min(Math.max(x, 0), 14)` from `chemistry.js`,
with the IEEE infinities of the argument modelled by `EReal` and the
result read back as a real number in `[0, 14]`. -/
noncomputable def clampPH (x : EReal) : ℝ :=
  (min (max x ((0 : ℝ) : EReal)) ((14 : ℝ) : EReal)).toReal

/-- `posQuadRoot(a, b, c)` from `chemistry.js` (identical in both
variants): `0` when the discriminant is negative, otherwise
`(-b + Math.sqrt(disc)) / (2a)`. -/
noncomputable def posQuadRoot (a b c : ℝ) : ℝ :=
  if b * b - 4 * a * c < 0 then 0
  else (-b + Real.sqrt (b * b - 4 * a * c)) / (2 * a)

/-- The state record destructured by `calcPH` in `chemistry.js`. -/
structure TitrationState where
  type : String
  analyteConc : ℝ
  analyteVol : ℝ
  titrantConc : ℝ
  titrantVol : ℝ
  pKa : ℝ
  pKb : ℝ
  pKa2 : ℝ
  pKa3 : ℝ

/-- One `{ volume, label }` marker of `calcEquivalencePoints`. -/
structure EqPoint where
  volume : ℝ
  label : String

/-- `calcEquivalencePoints(state)` from `chemistry.js` (textually identical
in both variants of the file). -/
noncomputable def calcEquivalencePoints (state : TitrationState) : List EqPoint :=
  let nA := state.analyteConc * (state.analyteVol / 1000)
  if state.titrantConc ≤ 0 then []
  else
    let toML := fun (n : ℝ) => n / state.titrantConc * 1000
    if state.type = "strong_base_diprotic_acid" then
      [⟨toML nA, "1st Eq"⟩, ⟨toML (2 * nA), "2nd Eq"⟩]
    else if state.type = "strong_base_triprotic_acid" then
      [⟨toML nA, "1st Eq"⟩, ⟨toML (2 * nA), "2nd Eq"⟩, ⟨toML (3 * nA), "3rd Eq"⟩]
    else [⟨toML nA, "Eq"⟩]

/-! Basic bridge lemmas between the `EReal` model and plain reals. -/

lemma jsLog10_of_ne (x : ℝ) (hx : x ≠ 0) :
    jsLog10 x = ((Real.logb 10 x : ℝ) : EReal) := by
  simp [jsLog10, hx]

lemma jsLog10_zero : jsLog10 0 = ⊥ := by simp [jsLog10]

lemma clampPH_coe (x : ℝ) : clampPH ((x : ℝ) : EReal) = min (max x 0) 14 := by
  unfold clampPH
  rcases le_total x 0 with h | h
  · rw [max_eq_right (EReal.coe_le_coe_iff.mpr h), max_eq_right h]
    rw [min_eq_left (EReal.coe_le_coe_iff.mpr (by norm_num : (0:ℝ) ≤ 14))]
    rw [min_eq_left (by norm_num : (0:ℝ) ≤ 14), EReal.toReal_coe]
  · rw [max_eq_left (EReal.coe_le_coe_iff.mpr h), max_eq_left h]
    rcases le_total x 14 with h14 | h14
    · rw [min_eq_left (EReal.coe_le_coe_iff.mpr h14), min_eq_left h14, EReal.toReal_coe]
    · rw [min_eq_right (EReal.coe_le_coe_iff.mpr h14), min_eq_right h14, EReal.toReal_coe]

lemma clampPH_top : clampPH ⊤ = 14 := by
  unfold clampPH
  rw [max_eq_left le_top, min_eq_right le_top, EReal.toReal_coe]

lemma clampPH_bot : clampPH ⊥ = 0 := by
  unfold clampPH
  rw [max_eq_right bot_le]
  rw [min_eq_left (EReal.coe_le_coe_iff.mpr (by norm_num : (0:ℝ) ≤ 14))]
  rw [EReal.toReal_coe]

lemma clampPH_mem (x : EReal) : clampPH x ∈ Set.Icc (0 : ℝ) 14 := by
  induction x using EReal.rec with
  | h_bot => rw [clampPH_bot]; constructor <;> norm_num
  | h_real a => rw [clampPH_coe]; constructor
                · exact le_min (le_max_right a 0) (by norm_num)
                · exact min_le_right _ 14
  | h_top => rw [clampPH_top]; constructor <;> norm_num

lemma clampPH_real_mono {x y : ℝ} (h : x ≤ y) :
    min (max x 0) 14 ≤ min (max y 0) 14 :=
  min_le_min (max_le_max h le_rfl) le_rfl

/-- Mirror identity of the clamp: `clamp(14 + L) = 14 - clamp(-L)` for any
extended-real intermediate `L`. -/
lemma clampPH_mirror (L : EReal) :
    clampPH (((14 : ℝ) : EReal) + L) = 14 - clampPH (-L) := by
  induction L using EReal.rec with
  | h_bot =>
      rw [EReal.add_bot, EReal.neg_bot, clampPH_bot, clampPH_top]; norm_num
  | h_real a =>
      rw [show -((a : ℝ) : EReal) = ((-a : ℝ) : EReal) from (EReal.coe_neg a).symm]
      rw [show ((14 : ℝ) : EReal) + ((a : ℝ) : EReal) = ((14 + a : ℝ) : EReal) from
        (EReal.coe_add 14 a).symm]
      rw [clampPH_coe, clampPH_coe]
      simp only [min_def, max_def]
      split_ifs <;> linarith
  | h_top =>
      rw [EReal.neg_top, clampPH_bot]
      rw [EReal.add_top_of_ne_bot (EReal.bot_lt_coe 14).ne']
      rw [clampPH_top]; norm_num

/-!  Variant 1 of `chemistry.js`: piecewise Henderson–Hasselbalch solver
with an `EQ_ZONE` tolerance band. -/

namespace V1

/-- `EPS = 1e-12` in variant 1. -/
noncomputable def EPS : ℝ := 1e-12

/-- `EQ_ZONE = 0.005` (0.5% of the equivalence amount either side). -/
noncomputable def EQ_ZONE : ℝ := 0.005

/-- `_strongBaseStrongAcid(nAcid, nBase, Vt_L)`, variant 1 (tolerance test
uses `<=`). -/
noncomputable def strongBaseStrongAcid (nAcid nBase Vt_L : ℝ) : ℝ :=
  let diff := nAcid - nBase
  if |diff| ≤ 1e-10 then 7
  else if diff > 0 then clampPH (-jsLog10 (diff / Vt_L))
  else clampPH (((14 : ℝ) : EReal) + jsLog10 (-diff / Vt_L))

/-- `_strongAcidStrongBase(nBase, nAcid, Vt_L)`, variant 1. -/
noncomputable def strongAcidStrongBase (nBase nAcid Vt_L : ℝ) : ℝ :=
  let diff := nBase - nAcid
  if |diff| ≤ 1e-10 then 7
  else if diff > 0 then clampPH (((14 : ℝ) : EReal) + jsLog10 (diff / Vt_L))
  else clampPH (-jsLog10 (-diff / Vt_L))

/-- `_strongBaseWeakAcid(nHA, nOH, Vt_L, pKa)`, variant 1: pure-acid
quadratic, Henderson–Hasselbalch buffer, hydrolysis equivalence zone,
excess strong base. -/
noncomputable def strongBaseWeakAcid (nHA nOH Vt_L pKa : ℝ) : ℝ :=
  let Ka := (10 : ℝ) ^ (-pKa)
  let delta := nHA * EQ_ZONE
  if nOH < EPS then
    clampPH (-jsLog10 (posQuadRoot 1 Ka (-Ka * (nHA / Vt_L))))
  else if nOH < nHA - delta then
    clampPH (((pKa : ℝ) : EReal) + jsLog10 (nOH / (nHA - nOH)))
  else if nOH ≤ nHA + delta then
    clampPH (((14 : ℝ) : EReal) +
      jsLog10 (max (posQuadRoot 1 (Kw / Ka) (-(Kw / Ka) * (nHA / Vt_L))) EPS))
  else
    clampPH (((14 : ℝ) : EReal) + jsLog10 ((nOH - nHA) / Vt_L))

/-- `_strongAcidWeakBase(nBase, nAcid, Vt_L, pKb)`, variant 1. -/
noncomputable def strongAcidWeakBase (nBase nAcid Vt_L pKb : ℝ) : ℝ :=
  let Kb := (10 : ℝ) ^ (-pKb)
  let Ka := Kw / Kb
  let delta := nBase * EQ_ZONE
  if nAcid < EPS then
    clampPH (((14 : ℝ) : EReal) +
      jsLog10 (max (posQuadRoot 1 Kb (-Kb * (nBase / Vt_L))) EPS))
  else if nAcid < nBase - delta then
    clampPH (((14 : ℝ) : EReal) -
      (((pKb : ℝ) : EReal) + jsLog10 ((nBase - nAcid) / nAcid)))
  else if nAcid ≤ nBase + delta then
    clampPH (-jsLog10 (max (posQuadRoot 1 Ka (-Ka * (nBase / Vt_L))) EPS))
  else
    clampPH (-jsLog10 ((nAcid - nBase) / Vt_L))

/-- `_weakAcidWeakBase(nBase, nAcid, Vt_L, pKa, pKb)`, variant 1: the
excess-acid branch uses the analyte pKa with the ratio of formed conjugate
base (`nBase`) to excess weak acid. -/
noncomputable def weakAcidWeakBase (nBase nAcid Vt_L pKa pKb : ℝ) : ℝ :=
  let Kb := (10 : ℝ) ^ (-pKb)
  let delta := nBase * EQ_ZONE
  if nAcid < EPS then
    clampPH (((14 : ℝ) : EReal) +
      jsLog10 (max (posQuadRoot 1 Kb (-Kb * (nBase / Vt_L))) EPS))
  else if nAcid < nBase - delta then
    clampPH (((14 : ℝ) : EReal) -
      (((pKb : ℝ) : EReal) + jsLog10 ((nBase - nAcid) / nAcid)))
  else if nAcid ≤ nBase + delta then
    clampPH ((((7 : ℝ) + 0.5 * (pKa - pKb) : ℝ) : EReal))
  else
    clampPH (((pKa : ℝ) : EReal) + jsLog10 (max (nBase / (nAcid - nBase)) EPS))

/-- `_strongBaseDiproticAcid(nH2A, nOH, Vt_L, pKa1, pKa2)`, variant 1. -/
noncomputable def strongBaseDiproticAcid (nH2A nOH Vt_L pKa1 pKa2 : ℝ) : ℝ :=
  let Ka1 := (10 : ℝ) ^ (-pKa1)
  let Ka2 := (10 : ℝ) ^ (-pKa2)
  let Veq1 := nH2A
  let Veq2 := 2 * nH2A
  let d1 := Veq1 * EQ_ZONE
  let d2 := Veq2 * EQ_ZONE
  if nOH < EPS then
    clampPH (-jsLog10 (max (posQuadRoot 1 Ka1 (-Ka1 * (nH2A / Vt_L))) EPS))
  else if nOH < Veq1 - d1 then
    clampPH (((pKa1 : ℝ) : EReal) + jsLog10 (nOH / (nH2A - nOH)))
  else if nOH ≤ Veq1 + d1 then
    clampPH ((((pKa1 + pKa2) / 2 : ℝ) : EReal))
  else if nOH < Veq2 - d2 then
    (if Veq1 - (nOH - Veq1) ≤ 0 then clampPH ((((pKa1 + pKa2) / 2 : ℝ) : EReal))
     else clampPH (((pKa2 : ℝ) : EReal) +
       jsLog10 ((nOH - Veq1) / (Veq1 - (nOH - Veq1)))))
  else if nOH ≤ Veq2 + d2 then
    clampPH (((14 : ℝ) : EReal) +
      jsLog10 (max (Real.sqrt ((Kw / Ka2) * (nH2A / Vt_L))) EPS))
  else
    clampPH (((14 : ℝ) : EReal) + jsLog10 ((nOH - Veq2) / Vt_L))

/-- `_strongBaseTriproticAcid(nH3A, nOH, Vt_L, pKa1, pKa2, pKa3)`,
variant 1 (with the inline-corrected `nHA2c`, `nA3c` amounts of the third
buffer region). -/
noncomputable def strongBaseTriproticAcid (nH3A nOH Vt_L pKa1 pKa2 pKa3 : ℝ) : ℝ :=
  let Ka3 := (10 : ℝ) ^ (-pKa3)
  let Veq1 := nH3A
  let Veq2 := 2 * nH3A
  let Veq3 := 3 * nH3A
  let d1 := Veq1 * EQ_ZONE
  let d2 := Veq2 * EQ_ZONE
  let d3 := Veq3 * EQ_ZONE
  if nOH < EPS then
    clampPH (-jsLog10 (max (posQuadRoot 1 ((10 : ℝ) ^ (-pKa1))
      (-(10 : ℝ) ^ (-pKa1) * (nH3A / Vt_L))) EPS))
  else if nOH < Veq1 - d1 then
    clampPH (((pKa1 : ℝ) : EReal) + jsLog10 (nOH / (nH3A - nOH)))
  else if nOH ≤ Veq1 + d1 then
    clampPH ((((pKa1 + pKa2) / 2 : ℝ) : EReal))
  else if nOH < Veq2 - d2 then
    (if Veq1 - (nOH - Veq1) ≤ 0 then clampPH ((((pKa1 + pKa2) / 2 : ℝ) : EReal))
     else clampPH (((pKa2 : ℝ) : EReal) +
       jsLog10 ((nOH - Veq1) / (Veq1 - (nOH - Veq1)))))
  else if nOH ≤ Veq2 + d2 then
    clampPH ((((pKa2 + pKa3) / 2 : ℝ) : EReal))
  else if nOH < Veq3 - d3 then
    (if 2 * Veq2 - nOH ≤ 0 then clampPH ((((pKa2 + pKa3) / 2 : ℝ) : EReal))
     else clampPH (((pKa3 : ℝ) : EReal) +
       jsLog10 ((nOH - Veq2) / (2 * Veq2 - nOH))))
  else if nOH ≤ Veq3 + d3 then
    clampPH (((14 : ℝ) : EReal) +
      jsLog10 (max (Real.sqrt ((Kw / Ka3) * (nH3A / Vt_L))) EPS))
  else
    clampPH (((14 : ℝ) : EReal) + jsLog10 ((nOH - Veq3) / Vt_L))

/-- `calcPH(state)`, variant 1: degenerate-volume guard, then dispatch on
the `type` string, defaulting to neutral 7. -/
noncomputable def calcPH (p : TitrationState) : ℝ :=
  let Vt_L := (p.analyteVol + p.titrantVol) / 1000
  if Vt_L ≤ 0 then 7
  else
    let nA := p.analyteConc * (p.analyteVol / 1000)
    let nT := p.titrantConc * (p.titrantVol / 1000)
    if p.type = "strong_base_strong_acid" then strongBaseStrongAcid nA nT Vt_L
    else if p.type = "strong_acid_strong_base" then strongAcidStrongBase nA nT Vt_L
    else if p.type = "strong_base_weak_acid" then strongBaseWeakAcid nA nT Vt_L p.pKa
    else if p.type = "strong_acid_weak_base" then strongAcidWeakBase nA nT Vt_L p.pKb
    else if p.type = "weak_acid_weak_base" then weakAcidWeakBase nA nT Vt_L p.pKa p.pKb
    else if p.type = "strong_base_diprotic_acid" then
      strongBaseDiproticAcid nA nT Vt_L p.pKa p.pKa2
    else if p.type = "strong_base_triprotic_acid" then
      strongBaseTriproticAcid nA nT Vt_L p.pKa p.pKa2 p.pKa3
    else 7

end V1

/-!  Variant 2 of `chemistry.js`: exact charge-balance bisection solver
(the spec's reference design). -/

namespace V2

/-- `EPS = 1e-15` in variant 2. -/
noncomputable def EPS : ℝ := 1e-15

/-- `_strongBaseStrongAcid(nAcid, nBase, Vt_L)`, variant 2 (tolerance test
uses `<`). -/
noncomputable def strongBaseStrongAcid (nAcid nBase Vt_L : ℝ) : ℝ :=
  let diff := nAcid - nBase
  if |diff| < 1e-10 then 7
  else if diff > 0 then clampPH (-jsLog10 (diff / Vt_L))
  else clampPH (((14 : ℝ) : EReal) + jsLog10 (-diff / Vt_L))

/-- `_strongAcidStrongBase(nBase, nAcid, Vt_L)`, variant 2. -/
noncomputable def strongAcidStrongBase (nBase nAcid Vt_L : ℝ) : ℝ :=
  let diff := nBase - nAcid
  if |diff| < 1e-10 then 7
  else if diff > 0 then clampPH (((14 : ℝ) : EReal) + jsLog10 (diff / Vt_L))
  else clampPH (-jsLog10 (-diff / Vt_L))

/-- One pass of the buffer-region bisection of `_strongBaseWeakAcid`,
variant 2: `H = sqrt(lo*hi)`; charge-balance residual
`H + [Na+] - [A-] - [OH-]`; positive residual moves `hi` down, otherwise
`lo` moves up. -/
noncomputable def sbwaStep (C_total Na Ka : ℝ) (p : ℝ × ℝ) : ℝ × ℝ :=
  let H := Real.sqrt (p.1 * p.2)
  let A := C_total * Ka / (H + Ka)
  let OH := Kw / H
  if H + Na - A - OH > 0 then (p.1, H) else (H, p.2)

/-- `_strongBaseWeakAcid(nHA_total, nOH, Vt_L, pKa)`, variant 2: exact
charge-balance bisection over `[1e-14, 1]` (150 iterations) in the buffer
region; conjugate-base hydrolysis near equivalence; closed form beyond. -/
noncomputable def strongBaseWeakAcid (nHA_total nOH Vt_L pKa : ℝ) : ℝ :=
  let Ka := (10 : ℝ) ^ (-pKa)
  if nOH ≤ 0 then
    clampPH (-jsLog10 (posQuadRoot 1 Ka (-Ka * nHA_total / Vt_L)))
  else if nOH < nHA_total then
    let C_total := nHA_total / Vt_L
    let Na := nOH / Vt_L
    let q := (sbwaStep C_total Na Ka)^[150] (1e-14, 1)
    clampPH (-jsLog10 (Real.sqrt (q.1 * q.2)))
  else if nOH < nHA_total * 1.001 then
    clampPH (((14 : ℝ) : EReal) +
      jsLog10 (posQuadRoot 1 (Kw / Ka) (-(Kw / Ka) * (nHA_total / Vt_L))))
  else
    clampPH (((14 : ℝ) : EReal) + jsLog10 ((nOH - nHA_total) / Vt_L))

/-- One pass of the bisection of `_strongAcidWeakBase`, variant 2:
residual `H + [BH+] - [OH-] - [Cl-]`. -/
noncomputable def sawbStep (C_total Cl Ka : ℝ) (p : ℝ × ℝ) : ℝ × ℝ :=
  let H := Real.sqrt (p.1 * p.2)
  let BH := C_total * H / (H + Ka)
  let OH := Kw / H
  if H + BH - OH - Cl > 0 then (p.1, H) else (H, p.2)

/-- `_strongAcidWeakBase(nB_total, nH, Vt_L, pKb)`, variant 2. -/
noncomputable def strongAcidWeakBase (nB_total nH Vt_L pKb : ℝ) : ℝ :=
  let Kb := (10 : ℝ) ^ (-pKb)
  let Ka := Kw / Kb
  if nH ≤ 0 then
    clampPH (((14 : ℝ) : EReal) +
      jsLog10 (posQuadRoot 1 Kb (-Kb * nB_total / Vt_L)))
  else if nH < nB_total then
    let C_total := nB_total / Vt_L
    let Cl := nH / Vt_L
    let q := (sawbStep C_total Cl Ka)^[150] (1e-14, 1)
    clampPH (-jsLog10 (Real.sqrt (q.1 * q.2)))
  else if nH < nB_total * 1.001 then
    clampPH (-jsLog10 (posQuadRoot 1 Ka (-Ka * (nB_total / Vt_L))))
  else
    clampPH (-jsLog10 ((nH - nB_total) / Vt_L))

/-- One pass of the weak-base buffer bisection of `_weakAcidWeakBase`,
variant 2: residual `H + [BH+] - [OH-] - [A-]` with
`[BH+] = C_total*H/(H + Kw/Kb)` and `[A-] = nHA_added/V`. -/
noncomputable def wawbStep (C_total Ka_conj Cl : ℝ) (p : ℝ × ℝ) : ℝ × ℝ :=
  let H := Real.sqrt (p.1 * p.2)
  let BH2 := C_total * H / (H + Ka_conj)
  let OH := Kw / H
  if H + BH2 - OH - Cl > 0 then (p.1, H) else (H, p.2)

/-- `_weakAcidWeakBase(nB_total, nHA_added, Vt_L, pKa, pKb)`, variant 2:
the excess-acid branch ends in the pure weak-acid quadratic on the excess
concentration (its preceding loop exits on its first pass and its residual
is never used). -/
noncomputable def weakAcidWeakBase (nB_total nHA_added Vt_L pKa pKb : ℝ) : ℝ :=
  let Kb := (10 : ℝ) ^ (-pKb)
  let Ka := (10 : ℝ) ^ (-pKa)
  let EQ_ZONE := nB_total * 0.005
  if nHA_added ≤ 0 then
    clampPH (((14 : ℝ) : EReal) +
      jsLog10 (posQuadRoot 1 Kb (-Kb * nB_total / Vt_L)))
  else if nHA_added < nB_total - EQ_ZONE then
    let C_total := nB_total / Vt_L
    let q := (wawbStep C_total (Kw / Kb) (nHA_added / Vt_L))^[150] (1e-14, 1)
    clampPH (-jsLog10 (Real.sqrt (q.1 * q.2)))
  else if nHA_added ≤ nB_total + EQ_ZONE then
    clampPH ((((7 : ℝ) + 0.5 * (pKa - pKb) : ℝ) : EReal))
  else
    clampPH (-jsLog10 (posQuadRoot 1 Ka (-Ka * (nHA_added - nB_total) / Vt_L)))

/-- One pass of the `α`-target bisection of `_exactDiprotic`: move `hi`
down when the equilibrium deprotonation fraction at `H = sqrt(lo*hi)` is
below the stoichiometric target. -/
noncomputable def diproticStep (Ka1 Ka2 alphaTarget : ℝ) (p : ℝ × ℝ) : ℝ × ℝ :=
  let H := Real.sqrt (p.1 * p.2)
  if (Ka1 * H + 2 * (Ka1 * Ka2)) / (H * H + Ka1 * H + Ka1 * Ka2) < alphaTarget
  then (p.1, H) else (H, p.2)

/-- `_exactDiprotic(nH2A_total, nOH, Vt_L, Ka1, Ka2)`, variant 2:
stoichiometric speciation, `α`-target bisection over `[1e-14, 10]`, with
hydrolysis and excess-base boundary cases. -/
noncomputable def exactDiprotic (nH2A_total nOH Vt_L Ka1 Ka2 : ℝ) : ℝ :=
  let Veq2 := 2 * nH2A_total
  if nOH ≥ Veq2 then
    (if nOH > Veq2 + EPS then
      clampPH (((14 : ℝ) : EReal) + jsLog10 ((nOH - Veq2) / Vt_L))
    else
      clampPH (((14 : ℝ) : EReal) +
        jsLog10 (max (Real.sqrt ((Kw / Ka2) * (nH2A_total / Vt_L))) EPS)))
  else
    let t : ℝ × ℝ × ℝ :=
      if nOH ≤ 0 then (nH2A_total, 0, 0)
      else if nOH ≤ nH2A_total then (nH2A_total - nOH, nOH, 0)
      else (0, max (nH2A_total - (nOH - nH2A_total)) 0, nOH - nH2A_total)
    let total := t.1 + t.2.1 + t.2.2
    if total < EPS then
      clampPH (((14 : ℝ) : EReal) +
        jsLog10 (max (Real.sqrt ((Kw / Ka2) * (nH2A_total / Vt_L))) EPS))
    else
      let alphaTarget := (t.2.1 + 2 * t.2.2) / total
      if alphaTarget ≥ 1.999 then
        clampPH (((14 : ℝ) : EReal) +
          jsLog10 (max (Real.sqrt ((Kw / Ka2) * (nH2A_total / Vt_L))) EPS))
      else
        let q := (diproticStep Ka1 Ka2 alphaTarget)^[150] (1e-14, 10)
        clampPH (-jsLog10 (Real.sqrt (q.1 * q.2)))

/-- `_strongBaseDiprotic(nH2A, nOH, Vt_L, pKa1, pKa2)`, variant 2. -/
noncomputable def strongBaseDiprotic (nH2A nOH Vt_L pKa1 pKa2 : ℝ) : ℝ :=
  exactDiprotic nH2A nOH Vt_L ((10 : ℝ) ^ (-pKa1)) ((10 : ℝ) ^ (-pKa2))

/-- One pass of the `α`-target bisection of `_exactTriprotic`. -/
noncomputable def triproticStep (Ka1 Ka2 Ka3 alphaTarget : ℝ) (p : ℝ × ℝ) : ℝ × ℝ :=
  let H := Real.sqrt (p.1 * p.2)
  if (Ka1 * (H * H) + 2 * (Ka1 * Ka2 * H) + 3 * (Ka1 * Ka2 * Ka3)) /
      (H * H * H + Ka1 * (H * H) + Ka1 * Ka2 * H + Ka1 * Ka2 * Ka3) < alphaTarget
  then (p.1, H) else (H, p.2)

/-- `_exactTriprotic(nH3A_total, nOH, Vt_L, Ka1, Ka2, Ka3)`, variant 2. -/
noncomputable def exactTriprotic (nH3A_total nOH Vt_L Ka1 Ka2 Ka3 : ℝ) : ℝ :=
  let Veq1 := nH3A_total
  let Veq2 := 2 * nH3A_total
  let Veq3 := 3 * nH3A_total
  if nOH ≥ Veq3 then
    (if nOH > Veq3 + EPS then
      clampPH (((14 : ℝ) : EReal) + jsLog10 ((nOH - Veq3) / Vt_L))
    else
      clampPH (((14 : ℝ) : EReal) +
        jsLog10 (max (Real.sqrt ((Kw / Ka3) * (nH3A_total / Vt_L))) EPS)))
  else
    let t : ℝ × ℝ × ℝ × ℝ :=
      if nOH ≤ 0 then (nH3A_total, 0, 0, 0)
      else if nOH ≤ Veq1 then (nH3A_total - nOH, nOH, 0, 0)
      else if nOH ≤ Veq2 then (0, max (Veq1 - (nOH - Veq1)) 0, nOH - Veq1, 0)
      else (0, 0, max (Veq2 - (nOH - Veq2)) 0, nOH - Veq2)
    let total := t.1 + t.2.1 + t.2.2.1 + t.2.2.2
    if total < EPS then
      clampPH (((14 : ℝ) : EReal) +
        jsLog10 (max (Real.sqrt ((Kw / Ka3) * (nH3A_total / Vt_L))) EPS))
    else
      let alphaTarget := (t.2.1 + 2 * t.2.2.1 + 3 * t.2.2.2) / total
      if alphaTarget ≥ 2.999 then
        clampPH (((14 : ℝ) : EReal) +
          jsLog10 (max (Real.sqrt ((Kw / Ka3) * (nH3A_total / Vt_L))) EPS))
      else
        let q := (triproticStep Ka1 Ka2 Ka3 alphaTarget)^[150] (1e-14, 10)
        clampPH (-jsLog10 (Real.sqrt (q.1 * q.2)))

/-- `_strongBaseTriprotic(nH3A, nOH, Vt_L, pKa1, pKa2, pKa3)`, variant 2. -/
noncomputable def strongBaseTriprotic (nH3A nOH Vt_L pKa1 pKa2 pKa3 : ℝ) : ℝ :=
  exactTriprotic nH3A nOH Vt_L
    ((10 : ℝ) ^ (-pKa1)) ((10 : ℝ) ^ (-pKa2)) ((10 : ℝ) ^ (-pKa3))

/-- `calcPH(state)`, variant 2: degenerate-volume guard, then dispatch on
the `type` string, defaulting to neutral 7. -/
noncomputable def calcPH (p : TitrationState) : ℝ :=
  let Vt_L := (p.analyteVol + p.titrantVol) / 1000
  if Vt_L ≤ 0 then 7
  else
    let nA := p.analyteConc * (p.analyteVol / 1000)
    let nT := p.titrantConc * (p.titrantVol / 1000)
    if p.type = "strong_base_strong_acid" then strongBaseStrongAcid nA nT Vt_L
    else if p.type = "strong_acid_strong_base" then strongAcidStrongBase nA nT Vt_L
    else if p.type = "strong_base_weak_acid" then strongBaseWeakAcid nA nT Vt_L p.pKa
    else if p.type = "strong_acid_weak_base" then strongAcidWeakBase nA nT Vt_L p.pKb
    else if p.type = "weak_acid_weak_base" then weakAcidWeakBase nA nT Vt_L p.pKa p.pKb
    else if p.type = "strong_base_diprotic_acid" then
      strongBaseDiprotic nA nT Vt_L p.pKa p.pKa2
    else if p.type = "strong_base_triprotic_acid" then
      strongBaseTriprotic nA nT Vt_L p.pKa p.pKa2 p.pKa3
    else 7

end V2

/-! Range lemmas: every branch of every solver returns either a clamped
value or the neutral constant 7, so all results lie in `[0, 14]`. -/

lemma seven_mem_Icc : (7 : ℝ) ∈ Set.Icc (0 : ℝ) 14 :=
  Set.mem_Icc.mpr ⟨by norm_num, by norm_num⟩

lemma V1.strongBaseStrongAcid_mem_v1 (a b V : ℝ) :
    V1.strongBaseStrongAcid a b V ∈ Set.Icc (0 : ℝ) 14 := by
  simp only [V1.strongBaseStrongAcid]
  split_ifs <;> first | exact clampPH_mem _ | exact seven_mem_Icc

lemma V1.strongAcidStrongBase_mem_v1 (a b V : ℝ) :
    V1.strongAcidStrongBase a b V ∈ Set.Icc (0 : ℝ) 14 := by
  simp only [V1.strongAcidStrongBase]
  split_ifs <;> first | exact clampPH_mem _ | exact seven_mem_Icc

lemma V1.strongBaseWeakAcid_mem_v1 (a b V k : ℝ) :
    V1.strongBaseWeakAcid a b V k ∈ Set.Icc (0 : ℝ) 14 := by
  simp only [V1.strongBaseWeakAcid]
  split_ifs <;> exact clampPH_mem _

lemma V1.strongAcidWeakBase_mem_v1 (a b V k : ℝ) :
    V1.strongAcidWeakBase a b V k ∈ Set.Icc (0 : ℝ) 14 := by
  simp only [V1.strongAcidWeakBase]
  split_ifs <;> exact clampPH_mem _

lemma V1.weakAcidWeakBase_mem_v1 (a b V k k2 : ℝ) :
    V1.weakAcidWeakBase a b V k k2 ∈ Set.Icc (0 : ℝ) 14 := by
  simp only [V1.weakAcidWeakBase]
  split_ifs <;> exact clampPH_mem _

lemma V1.strongBaseDiproticAcid_mem (a b V k k2 : ℝ) :
    V1.strongBaseDiproticAcid a b V k k2 ∈ Set.Icc (0 : ℝ) 14 := by
  simp only [V1.strongBaseDiproticAcid]
  split_ifs <;> exact clampPH_mem _

lemma V1.strongBaseTriproticAcid_mem (a b V k k2 k3 : ℝ) :
    V1.strongBaseTriproticAcid a b V k k2 k3 ∈ Set.Icc (0 : ℝ) 14 := by
  simp only [V1.strongBaseTriproticAcid]
  split_ifs <;> exact clampPH_mem _

lemma V1.calcPH_mem_v1 (s : TitrationState) :
    V1.calcPH s ∈ Set.Icc (0 : ℝ) 14 := by
  simp only [V1.calcPH]
  split_ifs
  · exact seven_mem_Icc
  · exact V1.strongBaseStrongAcid_mem_v1 _ _ _
  · exact V1.strongAcidStrongBase_mem_v1 _ _ _
  · exact V1.strongBaseWeakAcid_mem_v1 _ _ _ _
  · exact V1.strongAcidWeakBase_mem_v1 _ _ _ _
  · exact V1.weakAcidWeakBase_mem_v1 _ _ _ _ _
  · exact V1.strongBaseDiproticAcid_mem _ _ _ _ _
  · exact V1.strongBaseTriproticAcid_mem _ _ _ _ _ _
  · exact seven_mem_Icc

lemma V2.strongBaseStrongAcid_mem_v2 (a b V : ℝ) :
    V2.strongBaseStrongAcid a b V ∈ Set.Icc (0 : ℝ) 14 := by
  simp only [V2.strongBaseStrongAcid]
  split_ifs <;> first | exact clampPH_mem _ | exact seven_mem_Icc

lemma V2.strongAcidStrongBase_mem_v2 (a b V : ℝ) :
    V2.strongAcidStrongBase a b V ∈ Set.Icc (0 : ℝ) 14 := by
  simp only [V2.strongAcidStrongBase]
  split_ifs <;> first | exact clampPH_mem _ | exact seven_mem_Icc

lemma V2.strongBaseWeakAcid_mem_v2 (a b V k : ℝ) :
    V2.strongBaseWeakAcid a b V k ∈ Set.Icc (0 : ℝ) 14 := by
  simp only [V2.strongBaseWeakAcid]
  split_ifs <;> exact clampPH_mem _

lemma V2.strongAcidWeakBase_mem_v2 (a b V k : ℝ) :
    V2.strongAcidWeakBase a b V k ∈ Set.Icc (0 : ℝ) 14 := by
  simp only [V2.strongAcidWeakBase]
  split_ifs <;> exact clampPH_mem _

lemma V2.weakAcidWeakBase_mem_v2 (a b V k k2 : ℝ) :
    V2.weakAcidWeakBase a b V k k2 ∈ Set.Icc (0 : ℝ) 14 := by
  simp only [V2.weakAcidWeakBase]
  split_ifs <;> exact clampPH_mem _

lemma V2.exactDiprotic_mem (a b V k k2 : ℝ) :
    V2.exactDiprotic a b V k k2 ∈ Set.Icc (0 : ℝ) 14 := by
  simp only [V2.exactDiprotic]
  split_ifs <;> exact clampPH_mem _

lemma V2.exactTriprotic_mem (a b V k k2 k3 : ℝ) :
    V2.exactTriprotic a b V k k2 k3 ∈ Set.Icc (0 : ℝ) 14 := by
  simp only [V2.exactTriprotic]
  split_ifs <;> exact clampPH_mem _

lemma V2.calcPH_mem_v2 (s : TitrationState) :
    V2.calcPH s ∈ Set.Icc (0 : ℝ) 14 := by
  simp only [V2.calcPH, V2.strongBaseDiprotic, V2.strongBaseTriprotic]
  split_ifs
  · exact seven_mem_Icc
  · exact V2.strongBaseStrongAcid_mem_v2 _ _ _
  · exact V2.strongAcidStrongBase_mem_v2 _ _ _
  · exact V2.strongBaseWeakAcid_mem_v2 _ _ _ _
  · exact V2.strongAcidWeakBase_mem_v2 _ _ _ _
  · exact V2.weakAcidWeakBase_mem_v2 _ _ _ _ _
  · exact V2.exactDiprotic_mem _ _ _ _ _
  · exact V2.exactTriprotic_mem _ _ _ _ _ _
  · exact seven_mem_Icc

/-! Dispatch lemmas: with a positive total volume, `calcPH` reduces to the
regime solver selected by the `type` string. -/

lemma V2.calcPH_sbsa_v2 (s : TitrationState) (ht : s.type = "strong_base_strong_acid")
    (hV : 0 < s.analyteVol + s.titrantVol) :
    V2.calcPH s = V2.strongBaseStrongAcid (s.analyteConc * (s.analyteVol / 1000))
      (s.titrantConc * (s.titrantVol / 1000)) ((s.analyteVol + s.titrantVol) / 1000) := by
  have hV' : ¬ ((s.analyteVol + s.titrantVol) / 1000 ≤ 0) := by
    rw [not_le]; positivity
  simp only [V2.calcPH, ht]
  rw [if_neg hV']
  simp

lemma V2.calcPH_sasb_v2 (s : TitrationState) (ht : s.type = "strong_acid_strong_base")
    (hV : 0 < s.analyteVol + s.titrantVol) :
    V2.calcPH s = V2.strongAcidStrongBase (s.analyteConc * (s.analyteVol / 1000))
      (s.titrantConc * (s.titrantVol / 1000)) ((s.analyteVol + s.titrantVol) / 1000) := by
  have hV' : ¬ ((s.analyteVol + s.titrantVol) / 1000 ≤ 0) := by
    rw [not_le]; positivity
  simp only [V2.calcPH, ht]
  rw [if_neg hV']
  simp

lemma V2.calcPH_sbwa_v2 (s : TitrationState) (ht : s.type = "strong_base_weak_acid")
    (hV : 0 < s.analyteVol + s.titrantVol) :
    V2.calcPH s = V2.strongBaseWeakAcid (s.analyteConc * (s.analyteVol / 1000))
      (s.titrantConc * (s.titrantVol / 1000)) ((s.analyteVol + s.titrantVol) / 1000) s.pKa := by
  have hV' : ¬ ((s.analyteVol + s.titrantVol) / 1000 ≤ 0) := by
    rw [not_le]; positivity
  simp only [V2.calcPH, ht]
  rw [if_neg hV']
  simp

lemma V2.calcPH_wawb_v2 (s : TitrationState) (ht : s.type = "weak_acid_weak_base")
    (hV : 0 < s.analyteVol + s.titrantVol) :
    V2.calcPH s = V2.weakAcidWeakBase (s.analyteConc * (s.analyteVol / 1000))
      (s.titrantConc * (s.titrantVol / 1000)) ((s.analyteVol + s.titrantVol) / 1000)
      s.pKa s.pKb := by
  have hV' : ¬ ((s.analyteVol + s.titrantVol) / 1000 ≤ 0) := by
    rw [not_le]; positivity
  simp only [V2.calcPH, ht]
  rw [if_neg hV']
  simp

lemma V1.calcPH_sbsa_v1 (s : TitrationState) (ht : s.type = "strong_base_strong_acid")
    (hV : 0 < s.analyteVol + s.titrantVol) :
    V1.calcPH s = V1.strongBaseStrongAcid (s.analyteConc * (s.analyteVol / 1000))
      (s.titrantConc * (s.titrantVol / 1000)) ((s.analyteVol + s.titrantVol) / 1000) := by
  have hV' : ¬ ((s.analyteVol + s.titrantVol) / 1000 ≤ 0) := by
    rw [not_le]; positivity
  simp only [V1.calcPH, ht]
  rw [if_neg hV']
  simp

lemma V1.calcPH_sasb_v1 (s : TitrationState) (ht : s.type = "strong_acid_strong_base")
    (hV : 0 < s.analyteVol + s.titrantVol) :
    V1.calcPH s = V1.strongAcidStrongBase (s.analyteConc * (s.analyteVol / 1000))
      (s.titrantConc * (s.titrantVol / 1000)) ((s.analyteVol + s.titrantVol) / 1000) := by
  have hV' : ¬ ((s.analyteVol + s.titrantVol) / 1000 ≤ 0) := by
    rw [not_le]; positivity
  simp only [V1.calcPH, ht]
  rw [if_neg hV']
  simp

lemma V1.calcPH_sbwa_v1 (s : TitrationState) (ht : s.type = "strong_base_weak_acid")
    (hV : 0 < s.analyteVol + s.titrantVol) :
    V1.calcPH s = V1.strongBaseWeakAcid (s.analyteConc * (s.analyteVol / 1000))
      (s.titrantConc * (s.titrantVol / 1000)) ((s.analyteVol + s.titrantVol) / 1000) s.pKa := by
  have hV' : ¬ ((s.analyteVol + s.titrantVol) / 1000 ≤ 0) := by
    rw [not_le]; positivity
  simp only [V1.calcPH, ht]
  rw [if_neg hV']
  simp

lemma V1.calcPH_wawb_v1 (s : TitrationState) (ht : s.type = "weak_acid_weak_base")
    (hV : 0 < s.analyteVol + s.titrantVol) :
    V1.calcPH s = V1.weakAcidWeakBase (s.analyteConc * (s.analyteVol / 1000))
      (s.titrantConc * (s.titrantVol / 1000)) ((s.analyteVol + s.titrantVol) / 1000)
      s.pKa s.pKb := by
  have hV' : ¬ ((s.analyteVol + s.titrantVol) / 1000 ≤ 0) := by
    rw [not_le]; positivity
  simp only [V1.calcPH, ht]
  rw [if_neg hV']
  simp

/-- C1.  For every input state — including pathological ones such as
`analyteVol = 0` or `titrantConc = 0` — the value returned by `calcPH`
lies in `[0, 14]`; this holds for both variants of the solver, because
every return path is either the neutral constant 7 or a `clampPH` of the
intermediate arithmetic (including the infinite logarithms produced by
near-zero concentrations). -/
theorem C1_clamp_law (s : TitrationState) :
    V2.calcPH s ∈ Set.Icc (0 : ℝ) 14 ∧ V1.calcPH s ∈ Set.Icc (0 : ℝ) 14 :=
  ⟨V2.calcPH_mem_v2 s, V1.calcPH_mem_v1 s⟩

/-- C5.  `calcPH` is total: a degenerate total volume short-circuits to
neutral 7.00 before any regime solver is consulted, and an unrecognized
`type` string falls through the dispatch to the default 7.00; both
variants agree. -/
theorem C5_degenerate_and_unknown_type (s : TitrationState) :
    ((s.analyteVol + s.titrantVol) / 1000 ≤ 0 → V2.calcPH s = 7 ∧ V1.calcPH s = 7) ∧
    (s.type ∉ (["strong_base_strong_acid", "strong_acid_strong_base",
        "strong_base_weak_acid", "strong_acid_weak_base", "weak_acid_weak_base",
        "strong_base_diprotic_acid", "strong_base_triprotic_acid"] : List String) →
      V2.calcPH s = 7 ∧ V1.calcPH s = 7) := by
  constructor
  · intro h
    constructor
    · simp only [V2.calcPH]; rw [if_pos h]
    · simp only [V1.calcPH]; rw [if_pos h]
  · intro h
    simp only [List.mem_cons, List.not_mem_nil, or_false, not_or] at h
    obtain ⟨h1, h2, h3, h4, h5, h6, h7⟩ := h
    by_cases hV : (s.analyteVol + s.titrantVol) / 1000 ≤ 0
    · constructor
      · simp only [V2.calcPH]; rw [if_pos hV]
      · simp only [V1.calcPH]; rw [if_pos hV]
    · constructor
      · simp only [V2.calcPH]
        rw [if_neg hV, if_neg h1, if_neg h2, if_neg h3, if_neg h4, if_neg h5,
          if_neg h6, if_neg h7]
      · simp only [V1.calcPH]
        rw [if_neg hV, if_neg h1, if_neg h2, if_neg h3, if_neg h4, if_neg h5,
          if_neg h6, if_neg h7]

/-- Witness for C5 at two concrete states: an all-zero-volume state and a
state whose type string is not one of the seven variants. -/
theorem C5_degenerate_and_unknown_type_witness :
    (V2.calcPH ⟨"strong_base_strong_acid", 0.1, 0, 0.1, 0, 0, 0, 0, 0⟩ = 7 ∧
      V1.calcPH ⟨"strong_base_strong_acid", 0.1, 0, 0.1, 0, 0, 0, 0, 0⟩ = 7) ∧
    (V2.calcPH ⟨"citric_acid_special", 0.1, 25, 0.1, 5, 3, 4, 5, 6⟩ = 7 ∧
      V1.calcPH ⟨"citric_acid_special", 0.1, 25, 0.1, 5, 3, 4, 5, 6⟩ = 7) :=
  ⟨(C5_degenerate_and_unknown_type _).1 (by norm_num),
   (C5_degenerate_and_unknown_type _).2 (by decide)⟩

/-! Mirror lemmas for the strong/strong solvers. -/

lemma V2.sasb_eq_mirror_v2 (a b V : ℝ) :
    V2.strongAcidStrongBase a b V = 14 - V2.strongBaseStrongAcid a b V := by
  simp only [V2.strongAcidStrongBase, V2.strongBaseStrongAcid]
  split_ifs with h1 h2
  · norm_num
  · rw [clampPH_mirror]
  · rw [clampPH_mirror]; ring

lemma V1.sasb_eq_mirror_v1 (a b V : ℝ) :
    V1.strongAcidStrongBase a b V = 14 - V1.strongBaseStrongAcid a b V := by
  simp only [V1.strongAcidStrongBase, V1.strongBaseStrongAcid]
  split_ifs with h1 h2
  · norm_num
  · rw [clampPH_mirror]
  · rw [clampPH_mirror]; ring

lemma V2.calcPH_state_mirror_v2 (ac av tc tv ka kb k2 k3 : ℝ) :
    V2.calcPH ⟨"strong_acid_strong_base", ac, av, tc, tv, ka, kb, k2, k3⟩ =
      14 - V2.calcPH ⟨"strong_base_strong_acid", ac, av, tc, tv, ka, kb, k2, k3⟩ := by
  rcases le_or_lt (av + tv) 0 with hV | hV
  · have h : (av + tv) / 1000 ≤ 0 := by linarith
    simp only [V2.calcPH]
    rw [if_pos h, if_pos h]
    norm_num
  · rw [V2.calcPH_sasb_v2 _ rfl hV, V2.calcPH_sbsa_v2 _ rfl hV, V2.sasb_eq_mirror_v2]

lemma V1.calcPH_state_mirror_v1 (ac av tc tv ka kb k2 k3 : ℝ) :
    V1.calcPH ⟨"strong_acid_strong_base", ac, av, tc, tv, ka, kb, k2, k3⟩ =
      14 - V1.calcPH ⟨"strong_base_strong_acid", ac, av, tc, tv, ka, kb, k2, k3⟩ := by
  rcases le_or_lt (av + tv) 0 with hV | hV
  · have h : (av + tv) / 1000 ≤ 0 := by linarith
    simp only [V1.calcPH]
    rw [if_pos h, if_pos h]
    norm_num
  · rw [V1.calcPH_sasb_v1 _ rfl hV, V1.calcPH_sbsa_v1 _ rfl hV, V1.sasb_eq_mirror_v1]

/-- C6.  The two strong/strong solvers are mirror images: on identical
numeric inputs, `strong_acid_strong_base` returns `14` minus what
`strong_base_strong_acid` returns — at solver level for all mole amounts
and volumes, and at `calcPH` level for all states differing only in the
`type` string; this holds for both variants. -/
theorem C6_strong_strong_symmetry :
    (∀ a b V : ℝ,
      V2.strongAcidStrongBase a b V = 14 - V2.strongBaseStrongAcid a b V ∧
      V1.strongAcidStrongBase a b V = 14 - V1.strongBaseStrongAcid a b V) ∧
    (∀ ac av tc tv ka kb k2 k3 : ℝ,
      V2.calcPH ⟨"strong_acid_strong_base", ac, av, tc, tv, ka, kb, k2, k3⟩ =
        14 - V2.calcPH ⟨"strong_base_strong_acid", ac, av, tc, tv, ka, kb, k2, k3⟩ ∧
      V1.calcPH ⟨"strong_acid_strong_base", ac, av, tc, tv, ka, kb, k2, k3⟩ =
        14 - V1.calcPH ⟨"strong_base_strong_acid", ac, av, tc, tv, ka, kb, k2, k3⟩) :=
  ⟨fun a b V => ⟨V2.sasb_eq_mirror_v2 a b V, V1.sasb_eq_mirror_v1 a b V⟩,
   fun ac av tc tv ka kb k2 k3 =>
    ⟨V2.calcPH_state_mirror_v2 ac av tc tv ka kb k2 k3,
     V1.calcPH_state_mirror_v1 ac av tc tv ka kb k2 k3⟩⟩

/-! Concrete evaluation helpers for `logb` and clamped coercions. -/

lemma logb_ten_eq (x : ℝ) (n : ℤ) (hx : x = (10 : ℝ) ^ n) : Real.logb 10 x = n := by
  subst hx
  rw [← Real.rpow_intCast]
  exact Real.logb_rpow (by norm_num) (by norm_num)

lemma clampPH_coe_neg (x : ℝ) :
    clampPH (-((x : ℝ) : EReal)) = min (max (-x) 0) 14 := by
  rw [show -((x : ℝ) : EReal) = ((-x : ℝ) : EReal) from (EReal.coe_neg x).symm, clampPH_coe]

lemma clampPH_coe_add (x y : ℝ) :
    clampPH (((x : ℝ) : EReal) + ((y : ℝ) : EReal)) = min (max (x + y) 0) 14 := by
  rw [show ((x : ℝ) : EReal) + ((y : ℝ) : EReal) = ((x + y : ℝ) : EReal) from
    (EReal.coe_add x y).symm, clampPH_coe]

/-! Closed forms of the variant-2 strong/strong solver in its three
regimes. -/

lemma V2.sbsa_band (a b V : ℝ) (h : |a - b| < 1e-10) :
    V2.strongBaseStrongAcid a b V = 7 := by
  simp only [V2.strongBaseStrongAcid]
  rw [if_pos h]

lemma V2.sbsa_acid_excess (a b V : ℝ) (h : 1e-10 ≤ a - b) (hV : 0 < V) :
    V2.strongBaseStrongAcid a b V =
      min (max (-Real.logb 10 ((a - b) / V)) 0) 14 := by
  have h0 : (0 : ℝ) < a - b := by linarith
  have h1 : ¬ |a - b| < 1e-10 := by rw [abs_of_pos h0]; linarith
  simp only [V2.strongBaseStrongAcid]
  rw [if_neg h1, if_pos h0, jsLog10_of_ne _ (div_pos h0 hV).ne', clampPH_coe_neg]

lemma V2.sbsa_base_excess (a b V : ℝ) (h : 1e-10 ≤ b - a) (hV : 0 < V) :
    V2.strongBaseStrongAcid a b V =
      min (max (14 + Real.logb 10 ((b - a) / V)) 0) 14 := by
  have h0 : (0 : ℝ) < b - a := by linarith
  have h1 : ¬ |a - b| < 1e-10 := by rw [abs_of_neg (by linarith : a - b < 0)]; linarith
  have h2 : ¬ a - b > 0 := by linarith
  simp only [V2.strongBaseStrongAcid]
  rw [if_neg h1, if_neg h2, show -(a - b) = b - a from by ring,
    jsLog10_of_ne _ (div_pos h0 hV).ne', clampPH_coe_add]

lemma V2.sasb_band (a b V : ℝ) (h : |a - b| < 1e-10) :
    V2.strongAcidStrongBase a b V = 7 := by
  simp only [V2.strongAcidStrongBase]
  rw [if_pos h]

lemma V2.sasb_base_excess (a b V : ℝ) (h : 1e-10 ≤ a - b) (hV : 0 < V) :
    V2.strongAcidStrongBase a b V =
      min (max (14 + Real.logb 10 ((a - b) / V)) 0) 14 := by
  have h0 : (0 : ℝ) < a - b := by linarith
  have h1 : ¬ |a - b| < 1e-10 := by rw [abs_of_pos h0]; linarith
  simp only [V2.strongAcidStrongBase]
  rw [if_neg h1, if_pos h0, jsLog10_of_ne _ (div_pos h0 hV).ne', clampPH_coe_add]

lemma V2.sasb_acid_excess (a b V : ℝ) (h : 1e-10 ≤ b - a) (hV : 0 < V) :
    V2.strongAcidStrongBase a b V =
      min (max (-Real.logb 10 ((b - a) / V)) 0) 14 := by
  have h0 : (0 : ℝ) < b - a := by linarith
  have h1 : ¬ |a - b| < 1e-10 := by rw [abs_of_neg (by linarith : a - b < 0)]; linarith
  have h2 : ¬ a - b > 0 := by linarith
  simp only [V2.strongAcidStrongBase]
  rw [if_neg h1, if_neg h2, show -(a - b) = b - a from by ring,
    jsLog10_of_ne _ (div_pos h0 hV).ne', clampPH_coe_neg]

/-- C2 counterexample.  At `analyteConc = 10 M`, `analyteVol = 1000 mL`,
no titrant delivered, the closed form `-log10(diff/Vt) = -1` lies outside
`[0, 14]`, and `calcPH` returns the clamped value `0`, not the claimed
closed form: the claim omits the final clamp. -/
theorem C2_counterexample :
    V2.calcPH ⟨"strong_base_strong_acid", 10, 1000, 0.1, 0, 0, 0, 0, 0⟩ = 0 ∧
    -Real.logb 10 (((10 : ℝ) * (1000 / 1000) - 0.1 * (0 / 1000)) /
      ((1000 + 0) / 1000)) = -1 := by
  have harg : ((10 : ℝ) * (1000 / 1000) - 0.1 * (0 / 1000)) / ((1000 + 0) / 1000) = 10 := by
    norm_num
  constructor
  · rw [V2.calcPH_sbsa_v2 _ rfl (by norm_num)]
    rw [V2.sbsa_acid_excess _ _ _ (by norm_num) (by norm_num)]
    rw [harg, logb_ten_eq 10 1 (by norm_num)]
    norm_num
  · rw [harg, logb_ten_eq 10 1 (by norm_num)]
    norm_num

/-- C2 (amended).  For strong/strong states with positive total volume,
with `diff = nA - nT`: a `|diff|` below the 1e-10 mol tolerance returns
exactly 7.00; otherwise the result is the **clamped** closed form
`clamp(-log10(diff/Vt))` when the analyte species is in excess and
`clamp(14 + log10(-diff/Vt))` otherwise (sign convention flipped for the
acid-in-burette variant); and at `analyteConc = 0.1, analyteVol = 25,
titrantConc = 0.1, titrantVol = 25` the strong/strong pH is exactly 7.00. -/
theorem C2_amended (ac av tc tv ka kb k2 k3 : ℝ) (hV : 0 < av + tv) :
    (|ac * (av / 1000) - tc * (tv / 1000)| < 1e-10 →
      V2.calcPH ⟨"strong_base_strong_acid", ac, av, tc, tv, ka, kb, k2, k3⟩ = 7 ∧
      V2.calcPH ⟨"strong_acid_strong_base", ac, av, tc, tv, ka, kb, k2, k3⟩ = 7) ∧
    (1e-10 ≤ ac * (av / 1000) - tc * (tv / 1000) →
      V2.calcPH ⟨"strong_base_strong_acid", ac, av, tc, tv, ka, kb, k2, k3⟩ =
        min (max (-Real.logb 10 ((ac * (av / 1000) - tc * (tv / 1000)) /
          ((av + tv) / 1000))) 0) 14 ∧
      V2.calcPH ⟨"strong_acid_strong_base", ac, av, tc, tv, ka, kb, k2, k3⟩ =
        min (max (14 + Real.logb 10 ((ac * (av / 1000) - tc * (tv / 1000)) /
          ((av + tv) / 1000))) 0) 14) ∧
    (1e-10 ≤ tc * (tv / 1000) - ac * (av / 1000) →
      V2.calcPH ⟨"strong_base_strong_acid", ac, av, tc, tv, ka, kb, k2, k3⟩ =
        min (max (14 + Real.logb 10 ((tc * (tv / 1000) - ac * (av / 1000)) /
          ((av + tv) / 1000))) 0) 14 ∧
      V2.calcPH ⟨"strong_acid_strong_base", ac, av, tc, tv, ka, kb, k2, k3⟩ =
        min (max (-Real.logb 10 ((tc * (tv / 1000) - ac * (av / 1000)) /
          ((av + tv) / 1000))) 0) 14) ∧
    V2.calcPH ⟨"strong_base_strong_acid", 0.1, 25, 0.1, 25, ka, kb, k2, k3⟩ = 7 := by
  have hVpos : (0 : ℝ) < (av + tv) / 1000 := by positivity
  refine ⟨fun h => ?_, fun h => ?_, fun h => ?_, ?_⟩
  · constructor
    · rw [V2.calcPH_sbsa_v2 _ rfl hV, V2.sbsa_band _ _ _ h]
    · rw [V2.calcPH_sasb_v2 _ rfl hV, V2.sasb_band _ _ _ h]
  · constructor
    · rw [V2.calcPH_sbsa_v2 _ rfl hV, V2.sbsa_acid_excess _ _ _ h hVpos]
    · rw [V2.calcPH_sasb_v2 _ rfl hV, V2.sasb_base_excess _ _ _ h hVpos]
  · constructor
    · rw [V2.calcPH_sbsa_v2 _ rfl hV, V2.sbsa_base_excess _ _ _ h hVpos]
    · rw [V2.calcPH_sasb_v2 _ rfl hV, V2.sasb_acid_excess _ _ _ h hVpos]
  · rw [V2.calcPH_sbsa_v2 _ rfl (by norm_num)]
    rw [V2.sbsa_band _ _ _ (by norm_num)]

/-- Witness for C2 at a concrete acid-excess state. -/
theorem C2_amended_witness :
    V2.calcPH ⟨"strong_base_strong_acid", 1, 100, 0.1, 100, 0, 0, 0, 0⟩ =
      min (max (-Real.logb 10 (((1 : ℝ) * (100 / 1000) - 0.1 * (100 / 1000)) /
        ((100 + 100) / 1000))) 0) 14 :=
  ((C2_amended 1 100 0.1 100 0 0 0 0 (by norm_num)).2.1 (by norm_num)).1

/-! Closed forms of `calcEquivalencePoints` per analyte type. -/

lemma calcEq_map_di (ac av tc tv ka kb k2 k3 : ℝ) (htc : 0 < tc) :
    (calcEquivalencePoints ⟨"strong_base_diprotic_acid", ac, av, tc, tv, ka, kb, k2, k3⟩).map
      EqPoint.volume =
      [ac * (av / 1000) / tc * 1000, 2 * (ac * (av / 1000)) / tc * 1000] := by
  simp only [calcEquivalencePoints]
  rw [if_neg (not_le.mpr htc)]
  simp

lemma calcEq_map_tri (ac av tc tv ka kb k2 k3 : ℝ) (htc : 0 < tc) :
    (calcEquivalencePoints ⟨"strong_base_triprotic_acid", ac, av, tc, tv, ka, kb, k2, k3⟩).map
      EqPoint.volume =
      [ac * (av / 1000) / tc * 1000, 2 * (ac * (av / 1000)) / tc * 1000,
       3 * (ac * (av / 1000)) / tc * 1000] := by
  simp only [calcEquivalencePoints]
  rw [if_neg (not_le.mpr htc)]
  simp

lemma calcEq_map_other (ty : String) (ac av tc tv ka kb k2 k3 : ℝ) (htc : 0 < tc)
    (hd : ty ≠ "strong_base_diprotic_acid") (ht3 : ty ≠ "strong_base_triprotic_acid") :
    (calcEquivalencePoints ⟨ty, ac, av, tc, tv, ka, kb, k2, k3⟩).map EqPoint.volume =
      [ac * (av / 1000) / tc * 1000] := by
  simp only [calcEquivalencePoints]
  rw [if_neg (not_le.mpr htc), if_neg hd, if_neg ht3]
  simp

/-- C4.  `calcEquivalencePoints` is pure stoichiometry: an empty sequence
when `titrantConc ≤ 0`; otherwise exactly `n` points for an `n`-protic
analyte (2 for diprotic, 3 for triprotic, 1 for every other type), at
titrant volumes `i·nA/titrantConc·1000` mL for `i = 1..n`, in
non-decreasing order for every well-formed (non-negative) analyte. -/
theorem C4_equivalence_points (ty : String) (ac av tc tv ka kb k2 k3 : ℝ) :
    (tc ≤ 0 → calcEquivalencePoints ⟨ty, ac, av, tc, tv, ka, kb, k2, k3⟩ = []) ∧
    (0 < tc →
      (ty = "strong_base_diprotic_acid" →
        (calcEquivalencePoints ⟨ty, ac, av, tc, tv, ka, kb, k2, k3⟩).map EqPoint.volume =
          [ac * (av / 1000) / tc * 1000, 2 * (ac * (av / 1000)) / tc * 1000]) ∧
      (ty = "strong_base_triprotic_acid" →
        (calcEquivalencePoints ⟨ty, ac, av, tc, tv, ka, kb, k2, k3⟩).map EqPoint.volume =
          [ac * (av / 1000) / tc * 1000, 2 * (ac * (av / 1000)) / tc * 1000,
           3 * (ac * (av / 1000)) / tc * 1000]) ∧
      (ty ≠ "strong_base_diprotic_acid" → ty ≠ "strong_base_triprotic_acid" →
        (calcEquivalencePoints ⟨ty, ac, av, tc, tv, ka, kb, k2, k3⟩).map EqPoint.volume =
          [ac * (av / 1000) / tc * 1000]) ∧
      (0 ≤ ac → 0 ≤ av →
        List.Pairwise (· ≤ ·)
          ((calcEquivalencePoints ⟨ty, ac, av, tc, tv, ka, kb, k2, k3⟩).map
            EqPoint.volume))) := by
  constructor
  · intro h
    simp only [calcEquivalencePoints]
    rw [if_pos h]
  · intro htc
    have key : ∀ x y : ℝ, x ≤ y → x / tc * 1000 ≤ y / tc * 1000 := fun x y hxy =>
      mul_le_mul_of_nonneg_right ((div_le_div_iff_of_pos_right htc).mpr hxy) (by norm_num)
    refine ⟨fun hd => ?_, fun ht3 => ?_, fun hd ht3 => ?_, fun hac hav => ?_⟩
    · subst hd; exact calcEq_map_di ac av tc tv ka kb k2 k3 htc
    · subst ht3; exact calcEq_map_tri ac av tc tv ka kb k2 k3 htc
    · exact calcEq_map_other ty ac av tc tv ka kb k2 k3 htc hd ht3
    · have hnA : (0 : ℝ) ≤ ac * (av / 1000) := by positivity
      by_cases hd : ty = "strong_base_diprotic_acid"
      · subst hd
        rw [calcEq_map_di ac av tc tv ka kb k2 k3 htc]
        refine List.pairwise_cons.mpr ⟨?_, List.pairwise_singleton _ _⟩
        intro x hx
        rw [List.mem_singleton] at hx
        subst hx
        exact key _ _ (by linarith)
      · by_cases ht3 : ty = "strong_base_triprotic_acid"
        · subst ht3
          rw [calcEq_map_tri ac av tc tv ka kb k2 k3 htc]
          refine List.pairwise_cons.mpr ⟨?_, List.pairwise_cons.mpr
            ⟨?_, List.pairwise_singleton _ _⟩⟩
          · intro x hx
            rw [List.mem_cons, List.mem_singleton] at hx
            rcases hx with hx | hx <;> subst hx <;> exact key _ _ (by linarith)
          · intro x hx
            rw [List.mem_singleton] at hx
            subst hx
            exact key _ _ (by linarith)
        · rw [calcEq_map_other ty ac av tc tv ka kb k2 k3 htc hd ht3]
          exact List.pairwise_singleton _ _

/-- Witness for C4 at a concrete diprotic state with 0.1 M reagents. -/
theorem C4_equivalence_points_witness :
    (calcEquivalencePoints ⟨"strong_base_diprotic_acid", 0.1, 25, 0.1, 0,
      2, 0, 7, 0⟩).map EqPoint.volume =
      [(0.1 : ℝ) * (25 / 1000) / 0.1 * 1000, 2 * (0.1 * (25 / 1000)) / 0.1 * 1000] :=
  ((C4_equivalence_points "strong_base_diprotic_acid" 0.1 25 0.1 0 2 0 7 0).2
    (by norm_num)).1 rfl

/-- C9.  `posQuadRoot` returns 0 on a negative discriminant, and otherwise
the explicit root `(-b + sqrt(b^2 - 4ac))/(2a)`; for the physical call
shape `a = 1, b = K ≥ 0, c = -K·C` with `K, C ≥ 0` the discriminant is
non-negative and the returned value is the non-negative root of
`x² + Kx - K·C = 0`. -/
theorem C9_posQuadRoot_safety :
    (∀ a b c : ℝ, b * b - 4 * a * c < 0 → posQuadRoot a b c = 0) ∧
    (∀ a b c : ℝ, 0 ≤ b * b - 4 * a * c →
      posQuadRoot a b c = (-b + Real.sqrt (b * b - 4 * a * c)) / (2 * a)) ∧
    (∀ K C : ℝ, 0 ≤ K → 0 ≤ C →
      0 ≤ K * K - 4 * 1 * (-(K * C)) ∧
      0 ≤ posQuadRoot 1 K (-(K * C)) ∧
      posQuadRoot 1 K (-(K * C)) ^ 2 + K * posQuadRoot 1 K (-(K * C)) + -(K * C) = 0) := by
  refine ⟨fun a b c h => ?_, fun a b c h => ?_, fun K C hK hC => ?_⟩
  · unfold posQuadRoot
    rw [if_pos h]
  · unfold posQuadRoot
    rw [if_neg (not_lt.mpr h)]
  · have hdisc : K * K - 4 * 1 * (-(K * C)) = K * K + 4 * (K * C) := by ring
    have hKC : (0 : ℝ) ≤ K * C := mul_nonneg hK hC
    have hdnn : (0 : ℝ) ≤ K * K - 4 * 1 * (-(K * C)) := by nlinarith
    have hroot : posQuadRoot 1 K (-(K * C)) =
        (-K + Real.sqrt (K * K - 4 * 1 * (-(K * C)))) / (2 * 1) := by
      unfold posQuadRoot
      rw [if_neg (not_lt.mpr hdnn)]
    have hKle : K ≤ Real.sqrt (K * K - 4 * 1 * (-(K * C))) := by
      have h1 : Real.sqrt (K ^ 2) ≤ Real.sqrt (K * K - 4 * 1 * (-(K * C))) :=
        Real.sqrt_le_sqrt (by nlinarith)
      rwa [Real.sqrt_sq hK] at h1
    have hsq : Real.sqrt (K * K - 4 * 1 * (-(K * C))) ^ 2 =
        K * K - 4 * 1 * (-(K * C)) := Real.sq_sqrt hdnn
    refine ⟨hdnn, ?_, ?_⟩
    · rw [hroot]
      apply div_nonneg (by linarith) (by norm_num)
    · rw [hroot]
      have expand : ((-K + Real.sqrt (K * K - 4 * 1 * (-(K * C)))) / (2 * 1)) ^ 2 +
          K * ((-K + Real.sqrt (K * K - 4 * 1 * (-(K * C)))) / (2 * 1)) + -(K * C) =
          (Real.sqrt (K * K - 4 * 1 * (-(K * C))) ^ 2 -
            (K * K - 4 * 1 * (-(K * C)))) / 4 := by
        ring
      rw [expand, hsq]
      ring

/-- Witness for C9: a negative-discriminant call, an explicit-root call,
and the physical call shape at `K = 1, C = 2`. -/
theorem C9_posQuadRoot_safety_witness :
    posQuadRoot 1 0 1 = 0 ∧
    posQuadRoot 1 2 (-3) = (-2 + Real.sqrt (2 * 2 - 4 * 1 * (-3))) / (2 * 1) ∧
    (0 ≤ (1 : ℝ) * 1 - 4 * 1 * (-(1 * 2)) ∧
      0 ≤ posQuadRoot 1 1 (-(1 * 2)) ∧
      posQuadRoot 1 1 (-(1 * 2)) ^ 2 + 1 * posQuadRoot 1 1 (-(1 * 2)) + -(1 * 2) = 0) :=
  ⟨C9_posQuadRoot_safety.1 1 0 1 (by norm_num),
   C9_posQuadRoot_safety.2.1 1 2 (-3) (by norm_num),
   C9_posQuadRoot_safety.2.2 1 2 (by norm_num) (by norm_num)⟩

/-- With a vanishing constant coefficient and a non-negative `K`, the
positive quadratic root degenerates to `(-K + K)/2 = 0`. -/
lemma posQuadRoot_c_zero (K : ℝ) (hK : 0 ≤ K) : posQuadRoot 1 K 0 = 0 := by
  unfold posQuadRoot
  rw [if_neg (not_lt.mpr (by nlinarith : (0 : ℝ) ≤ K * K - 4 * 1 * 0))]
  rw [show K * K - 4 * 1 * 0 = K ^ 2 from by ring, Real.sqrt_sq hK]
  ring

/-- C10.  A `strong_base_weak_acid` flask with zero analyte concentration,
positive volume and no titrant is reported at pH 14 in both variants: the
pure-weak-acid quadratic returns `[H+] = 0`, `-log10(0) = +∞`, and the
clamp saturates at the upper bound — not at neutral 7.00. -/
theorem C10_zero_acid_saturates_high (av tc ka kb k2 k3 : ℝ) (hav : 0 < av) :
    V2.calcPH ⟨"strong_base_weak_acid", 0, av, tc, 0, ka, kb, k2, k3⟩ = 14 ∧
    V1.calcPH ⟨"strong_base_weak_acid", 0, av, tc, 0, ka, kb, k2, k3⟩ = 14 := by
  have hV : (0 : ℝ) < av + 0 := by linarith
  have hKa : (0 : ℝ) ≤ (10 : ℝ) ^ (-ka) := (Real.rpow_pos_of_pos (by norm_num) _).le
  constructor
  · rw [V2.calcPH_sbwa_v2 _ rfl hV]
    simp only [V2.strongBaseWeakAcid]
    rw [if_pos (by norm_num : tc * ((0 : ℝ) / 1000) ≤ 0)]
    simp only [zero_mul, mul_zero, zero_div, neg_zero]
    rw [posQuadRoot_c_zero _ hKa, jsLog10_zero, EReal.neg_bot, clampPH_top]
  · rw [V1.calcPH_sbwa_v1 _ rfl hV]
    simp only [V1.strongBaseWeakAcid]
    rw [if_pos (by norm_num [V1.EPS] : tc * ((0 : ℝ) / 1000) < V1.EPS)]
    simp only [zero_mul, mul_zero, zero_div, neg_zero]
    rw [posQuadRoot_c_zero _ hKa, jsLog10_zero, EReal.neg_bot, clampPH_top]

/-- Witness for C10 at a 25 mL flask. -/
theorem C10_zero_acid_saturates_high_witness :
    V2.calcPH ⟨"strong_base_weak_acid", 0, 25, 0.1, 0, 4.74, 0, 0, 0⟩ = 14 ∧
    V1.calcPH ⟨"strong_base_weak_acid", 0, 25, 0.1, 0, 4.74, 0, 0, 0⟩ = 14 :=
  C10_zero_acid_saturates_high 25 0.1 4.74 0 0 0 (by norm_num)

/-- C3.  In the buffer region of `strong_base_weak_acid` (delivered base
moles strictly positive and strictly below the total weak-acid moles),
the reference (charge-balance) variant of `calcPH` computes pH as
`clamp(-log10 H)` where `H` is obtained by the 150-iteration log-space
bisection of the charge balance `[H+] + [Na+] - [A-] - [OH-]` over the
bracket `[1e-14, 1]` — the Henderson–Hasselbalch formula is not used on
this path. -/
theorem C3_buffer_charge_balance_bisection (ac av tc tv ka kb k2 k3 : ℝ)
    (hV : 0 < av + tv) (hOH : 0 < tc * (tv / 1000))
    (hlt : tc * (tv / 1000) < ac * (av / 1000)) :
    V2.calcPH ⟨"strong_base_weak_acid", ac, av, tc, tv, ka, kb, k2, k3⟩ =
      clampPH (-jsLog10 (Real.sqrt
        (((V2.sbwaStep ((ac * (av / 1000)) / ((av + tv) / 1000))
            ((tc * (tv / 1000)) / ((av + tv) / 1000)) ((10 : ℝ) ^ (-ka)))^[150]
            (1e-14, 1)).1 *
         ((V2.sbwaStep ((ac * (av / 1000)) / ((av + tv) / 1000))
            ((tc * (tv / 1000)) / ((av + tv) / 1000)) ((10 : ℝ) ^ (-ka)))^[150]
            (1e-14, 1)).2))) := by
  rw [V2.calcPH_sbwa_v2 _ rfl hV]
  simp only [V2.strongBaseWeakAcid]
  rw [if_neg (not_le.mpr hOH), if_pos hlt]

/-- Witness for C3 at the half-equivalence point of a 0.1 M acetic-acid
style titration. -/
theorem C3_buffer_charge_balance_bisection_witness :
    V2.calcPH ⟨"strong_base_weak_acid", 0.1, 25, 0.1, 12.5, 4.74, 0, 0, 0⟩ =
      clampPH (-jsLog10 (Real.sqrt
        (((V2.sbwaStep ((0.1 * (25 / 1000)) / ((25 + 12.5) / 1000))
            ((0.1 * (12.5 / 1000)) / ((25 + 12.5) / 1000)) ((10 : ℝ) ^ (-(4.74 : ℝ))))^[150]
            (1e-14, 1)).1 *
         ((V2.sbwaStep ((0.1 * (25 / 1000)) / ((25 + 12.5) / 1000))
            ((0.1 * (12.5 / 1000)) / ((25 + 12.5) / 1000)) ((10 : ℝ) ^ (-(4.74 : ℝ))))^[150]
            (1e-14, 1)).2))) :=
  C3_buffer_charge_balance_bisection 0.1 25 0.1 12.5 4.74 0 0 0
    (by norm_num) (by norm_num) (by norm_num)

/-! Closed forms of the weak/weak excess-acid branch in both variants. -/

lemma V2.wawb_excess_v2 (nB nHA Vt pKa pKb : ℝ) (hB : 0 ≤ nB)
    (hex : nB + nB * 0.005 < nHA) :
    V2.weakAcidWeakBase nB nHA Vt pKa pKb =
      clampPH (-jsLog10 (posQuadRoot 1 ((10 : ℝ) ^ (-pKa))
        (-(10 : ℝ) ^ (-pKa) * (nHA - nB) / Vt))) := by
  have hBz : (0 : ℝ) ≤ nB * 0.005 := by nlinarith
  simp only [V2.weakAcidWeakBase]
  rw [if_neg (not_le.mpr (by nlinarith : (0 : ℝ) < nHA)),
    if_neg (not_lt.mpr (by nlinarith : nB - nB * 0.005 ≤ nHA)),
    if_neg (not_le.mpr (by nlinarith : nB + nB * 0.005 < nHA))]

lemma V1.wawb_excess_v1 (nB nHA Vt pKa pKb : ℝ) (hB : 0 ≤ nB)
    (hE : 1e-12 ≤ nHA) (hex : nB + nB * 0.005 < nHA) :
    V1.weakAcidWeakBase nB nHA Vt pKa pKb =
      clampPH (((pKa : ℝ) : EReal) + jsLog10 (max (nB / (nHA - nB)) 1e-12)) := by
  have hBz : (0 : ℝ) ≤ nB * 0.005 := by nlinarith
  simp only [V1.weakAcidWeakBase, V1.EPS, V1.EQ_ZONE]
  rw [if_neg (not_lt.mpr hE),
    if_neg (not_lt.mpr (by nlinarith : nB - nB * 0.005 ≤ nHA)),
    if_neg (not_le.mpr (by nlinarith : nB + nB * 0.005 < nHA))]

/-- C8 counterexample.  In the reference (charge-balance) variant, the
excess-weak-acid branch ignores the conjugate-base/excess-acid ratio: at
a state with ratio 10 and pKa 7 it returns pH 7 (pure weak-acid quadratic
on the excess), while the claimed `pKa + log10(ratio)` form gives 8. -/
theorem C8_counterexample :
    V2.calcPH ⟨"weak_acid_weak_base", 4e-6, 10, 4.4e-6, 10, 7, 5, 0, 0⟩ = 7 ∧
    min (max ((7 : ℝ) + Real.logb 10 ((4e-6 * (10 / 1000)) /
      (4.4e-6 * (10 / 1000) - 4e-6 * (10 / 1000)))) 0) 14 = 8 := by
  constructor
  · rw [V2.calcPH_wawb_v2 _ rfl (by norm_num)]
    rw [V2.wawb_excess_v2 _ _ _ _ _ (by norm_num) (by norm_num)]
    rw [show ((10 : ℝ) ^ (-(7 : ℝ))) = 1e-7 from by
      rw [show (-(7 : ℝ)) = ((-7 : ℤ) : ℝ) from by norm_num, Real.rpow_intCast]
      norm_num]
    rw [show -(1e-7 : ℝ) * (4.4e-6 * (10 / 1000) - 4e-6 * (10 / 1000)) /
        ((10 + 10) / 1000) = -2e-14 from by norm_num]
    rw [show posQuadRoot 1 (1e-7) (-2e-14) = 1e-7 from by
      unfold posQuadRoot
      rw [if_neg (by norm_num)]
      rw [show (1e-7 : ℝ) * 1e-7 - 4 * 1 * (-2e-14) = (3e-7) ^ 2 from by norm_num,
        Real.sqrt_sq (by norm_num)]
      norm_num]
    rw [jsLog10_of_ne _ (by norm_num),
      logb_ten_eq (1e-7) (-7) (by rw [zpow_neg]; norm_num), clampPH_coe_neg]
    push_cast
    norm_num
  · rw [show (4e-6 * ((10 : ℝ) / 1000)) /
        (4.4e-6 * (10 / 1000) - 4e-6 * (10 / 1000)) = 10 from by norm_num]
    rw [logb_ten_eq 10 1 (by norm_num)]
    push_cast
    norm_num

/-- C8 (amended).  In the excess-weak-acid region, the piecewise variant
computes `clamp(pKa + log10(max(nB/(nHA - nB), 1e-12)))`, using the
analyte pKa together with the ratio of formed conjugate base to excess
weak acid; the reference charge-balance variant uses the analyte pKa but
not the ratio — it applies the pure weak-acid quadratic to the excess
concentration `(nHA - nB)/Vt` alone. -/
theorem C8_excess_acid_branch (ac av tc tv ka kb k2 k3 : ℝ) (hV : 0 < av + tv)
    (hnB : 0 ≤ ac * (av / 1000))
    (hex : ac * (av / 1000) + ac * (av / 1000) * 0.005 < tc * (tv / 1000))
    (hE : 1e-12 ≤ tc * (tv / 1000)) :
    V2.calcPH ⟨"weak_acid_weak_base", ac, av, tc, tv, ka, kb, k2, k3⟩ =
      clampPH (-jsLog10 (posQuadRoot 1 ((10 : ℝ) ^ (-ka))
        (-(10 : ℝ) ^ (-ka) * (tc * (tv / 1000) - ac * (av / 1000)) /
          ((av + tv) / 1000)))) ∧
    V1.calcPH ⟨"weak_acid_weak_base", ac, av, tc, tv, ka, kb, k2, k3⟩ =
      clampPH (((ka : ℝ) : EReal) + jsLog10 (max
        ((ac * (av / 1000)) / (tc * (tv / 1000) - ac * (av / 1000))) 1e-12)) := by
  constructor
  · rw [V2.calcPH_wawb_v2 _ rfl hV]
    exact V2.wawb_excess_v2 _ _ _ _ _ hnB hex
  · rw [V1.calcPH_wawb_v1 _ rfl hV]
    exact V1.wawb_excess_v1 _ _ _ _ _ hnB hE hex

/-- Witness for C8 at the ratio-10 state of the counterexample. -/
theorem C8_excess_acid_branch_witness :
    V2.calcPH ⟨"weak_acid_weak_base", 4e-6, 10, 4.4e-6, 10, 7, 5, 0, 0⟩ =
      clampPH (-jsLog10 (posQuadRoot 1 ((10 : ℝ) ^ (-(7 : ℝ)))
        (-(10 : ℝ) ^ (-(7 : ℝ)) * (4.4e-6 * (10 / 1000) - 4e-6 * (10 / 1000)) /
          ((10 + 10) / 1000)))) ∧
    V1.calcPH ⟨"weak_acid_weak_base", 4e-6, 10, 4.4e-6, 10, 7, 5, 0, 0⟩ =
      clampPH (((7 : ℝ) : EReal) + jsLog10 (max
        ((4e-6 * ((10 : ℝ) / 1000)) / (4.4e-6 * (10 / 1000) - 4e-6 * (10 / 1000)))
        1e-12)) :=
  C8_excess_acid_branch 4e-6 10 4.4e-6 10 7 5 0 0
    (by norm_num) (by norm_num) (by norm_num) (by norm_num)

/-- C7 counterexample.  pH is not monotone in `titrantVol` for the
base-into-acid type `strong_base_strong_acid`: just below equivalence
(`diff = 1e-10 mol`) the acid-excess closed form already reports a pH
above 7 (about 8.04), and at exact equivalence the tolerance band snaps
down to 7.00 — a strictly smaller value at a strictly larger volume. -/
theorem C7_counterexample :
    V2.calcPH ⟨"strong_base_strong_acid", 0.1, 10, 1, 1, 0, 0, 0, 0⟩ = 7 ∧
    7 < V2.calcPH ⟨"strong_base_strong_acid", 0.1, 10, 1, 0.9999999, 0, 0, 0, 0⟩ ∧
    (0.9999999 : ℝ) < 1 := by
  have h107 : ((10 : ℝ) ^ (-(7 : ℝ)) : ℝ) = 1e-7 := by
    rw [show (-(7 : ℝ)) = ((-7 : ℤ) : ℝ) from by norm_num, Real.rpow_intCast]
    norm_num
  refine ⟨?_, ?_, by norm_num⟩
  · rw [V2.calcPH_sbsa_v2 _ rfl (by norm_num), V2.sbsa_band _ _ _ (by norm_num)]
  · rw [V2.calcPH_sbsa_v2 _ rfl (by norm_num),
      V2.sbsa_acid_excess _ _ _ (by norm_num) (by norm_num)]
    have hxpos : (0 : ℝ) < (0.1 * (10 / 1000) - 1 * (0.9999999 / 1000)) /
        ((10 + 0.9999999) / 1000) := by norm_num
    have hlog : Real.logb 10 ((0.1 * (10 / 1000) - 1 * (0.9999999 / 1000)) /
        ((10 + 0.9999999) / 1000)) < -7 := by
      rw [Real.logb_lt_iff_lt_rpow (by norm_num) hxpos, h107]
      norm_num
    refine lt_min (lt_of_lt_of_le (by linarith) (le_max_left _ _)) (by norm_num)

/-! Monotonicity of the strong/strong closed forms within each
stoichiometric regime. -/

lemma clamp_neg_logb_antitone (x y : ℝ) (hy : 0 < y) (hxy : y ≤ x) :
    min (max (-Real.logb 10 x) 0) 14 ≤ min (max (-Real.logb 10 y) 0) 14 :=
  clampPH_real_mono (neg_le_neg (Real.logb_le_logb_of_le (by norm_num) hy hxy))

lemma clamp_14_logb_mono (x y : ℝ) (hx : 0 < x) (hxy : x ≤ y) :
    min (max (14 + Real.logb 10 x) 0) 14 ≤ min (max (14 + Real.logb 10 y) 0) 14 := by
  have := Real.logb_le_logb_of_le (b := 10) (by norm_num) hx hxy
  exact clampPH_real_mono (by linarith)

lemma V2.calcPH_sbsa_mono_acid (ac av tc v w ka kb k2 k3 : ℝ)
    (hac : 0 ≤ ac) (hav : 0 < av) (htc : 0 ≤ tc) (hv : 0 ≤ v) (hvw : v ≤ w)
    (h : 1e-10 ≤ ac * (av / 1000) - tc * (w / 1000)) :
    V2.calcPH ⟨"strong_base_strong_acid", ac, av, tc, v, ka, kb, k2, k3⟩ ≤
      V2.calcPH ⟨"strong_base_strong_acid", ac, av, tc, w, ka, kb, k2, k3⟩ := by
  have hnT : tc * (v / 1000) ≤ tc * (w / 1000) :=
    mul_le_mul_of_nonneg_left (by linarith) htc
  have hdv : 1e-10 ≤ ac * (av / 1000) - tc * (v / 1000) := by linarith
  have h1 : (0 : ℝ) < (av + v) / 1000 := div_pos (by linarith) (by norm_num)
  have h2 : (0 : ℝ) < (av + w) / 1000 := div_pos (by linarith) (by norm_num)
  rw [V2.calcPH_sbsa_v2 _ rfl (by linarith), V2.calcPH_sbsa_v2 _ rfl (by linarith),
    V2.sbsa_acid_excess _ _ _ hdv h1, V2.sbsa_acid_excess _ _ _ h h2]
  apply clamp_neg_logb_antitone
  · exact div_pos (by linarith) h2
  · rw [div_le_div_iff h2 h1]
    have c1 : (ac * (av / 1000) - tc * (w / 1000)) * ((av + v) / 1000) ≤
        (ac * (av / 1000) - tc * (v / 1000)) * ((av + v) / 1000) :=
      mul_le_mul_of_nonneg_right (by linarith) h1.le
    have c2 : (ac * (av / 1000) - tc * (v / 1000)) * ((av + v) / 1000) ≤
        (ac * (av / 1000) - tc * (v / 1000)) * ((av + w) / 1000) :=
      mul_le_mul_of_nonneg_left (by linarith) (by linarith)
    linarith

lemma V2.calcPH_sbsa_mono_base (ac av tc v w ka kb k2 k3 : ℝ)
    (hac : 0 ≤ ac) (hav : 0 < av) (htc : 0 ≤ tc) (hv : 0 ≤ v) (hvw : v ≤ w)
    (h : 1e-10 ≤ tc * (v / 1000) - ac * (av / 1000)) :
    V2.calcPH ⟨"strong_base_strong_acid", ac, av, tc, v, ka, kb, k2, k3⟩ ≤
      V2.calcPH ⟨"strong_base_strong_acid", ac, av, tc, w, ka, kb, k2, k3⟩ := by
  have hnT : tc * (v / 1000) ≤ tc * (w / 1000) :=
    mul_le_mul_of_nonneg_left (by linarith) htc
  have hdw : 1e-10 ≤ tc * (w / 1000) - ac * (av / 1000) := by linarith
  have h1 : (0 : ℝ) < (av + v) / 1000 := div_pos (by linarith) (by norm_num)
  have h2 : (0 : ℝ) < (av + w) / 1000 := div_pos (by linarith) (by norm_num)
  rw [V2.calcPH_sbsa_v2 _ rfl (by linarith), V2.calcPH_sbsa_v2 _ rfl (by linarith),
    V2.sbsa_base_excess _ _ _ h h1, V2.sbsa_base_excess _ _ _ hdw h2]
  apply clamp_14_logb_mono
  · exact div_pos (by linarith) h1
  · rw [div_le_div_iff h1 h2]
    nlinarith [mul_nonneg (sub_nonneg.mpr hvw) (mul_nonneg hac (by positivity : (0:ℝ) ≤ av / 1000)),
      mul_nonneg (sub_nonneg.mpr hvw) (mul_nonneg htc (by positivity : (0:ℝ) ≤ av / 1000))]

/-- C7 (amended).  Monotonicity holds regime-wise, not globally: for the
strong/strong closed forms, pH is non-decreasing in `titrantVol` while the
acid stays in excess by at least the 1e-10 mol tolerance, constant 7.00
inside the tolerance band, and non-decreasing once the base is in excess
by the tolerance; the mirrored acid-into-base type is non-increasing on
the same regimes.  Across the band boundaries the claim fails (see the
counterexample), and the weak/polyprotic regimes have analogous
boundary snaps. -/
theorem C7_regimewise_monotonicity (ac av tc v w ka kb k2 k3 : ℝ)
    (hac : 0 ≤ ac) (hav : 0 < av) (htc : 0 ≤ tc) (hv : 0 ≤ v) (hvw : v ≤ w) :
    (1e-10 ≤ ac * (av / 1000) - tc * (w / 1000) →
      V2.calcPH ⟨"strong_base_strong_acid", ac, av, tc, v, ka, kb, k2, k3⟩ ≤
        V2.calcPH ⟨"strong_base_strong_acid", ac, av, tc, w, ka, kb, k2, k3⟩) ∧
    (1e-10 ≤ tc * (v / 1000) - ac * (av / 1000) →
      V2.calcPH ⟨"strong_base_strong_acid", ac, av, tc, v, ka, kb, k2, k3⟩ ≤
        V2.calcPH ⟨"strong_base_strong_acid", ac, av, tc, w, ka, kb, k2, k3⟩) ∧
    (|ac * (av / 1000) - tc * (v / 1000)| < 1e-10 →
     |ac * (av / 1000) - tc * (w / 1000)| < 1e-10 →
      V2.calcPH ⟨"strong_base_strong_acid", ac, av, tc, v, ka, kb, k2, k3⟩ = 7 ∧
      V2.calcPH ⟨"strong_base_strong_acid", ac, av, tc, w, ka, kb, k2, k3⟩ = 7) ∧
    (1e-10 ≤ ac * (av / 1000) - tc * (w / 1000) →
      V2.calcPH ⟨"strong_acid_strong_base", ac, av, tc, w, ka, kb, k2, k3⟩ ≤
        V2.calcPH ⟨"strong_acid_strong_base", ac, av, tc, v, ka, kb, k2, k3⟩) ∧
    (1e-10 ≤ tc * (v / 1000) - ac * (av / 1000) →
      V2.calcPH ⟨"strong_acid_strong_base", ac, av, tc, w, ka, kb, k2, k3⟩ ≤
        V2.calcPH ⟨"strong_acid_strong_base", ac, av, tc, v, ka, kb, k2, k3⟩) := by
  refine ⟨fun h => V2.calcPH_sbsa_mono_acid ac av tc v w ka kb k2 k3 hac hav htc hv hvw h,
    fun h => V2.calcPH_sbsa_mono_base ac av tc v w ka kb k2 k3 hac hav htc hv hvw h,
    fun h1 h2 => ?_, fun h => ?_, fun h => ?_⟩
  · constructor
    · rw [V2.calcPH_sbsa_v2 _ rfl (by linarith), V2.sbsa_band _ _ _ h1]
    · rw [V2.calcPH_sbsa_v2 _ rfl (by linarith), V2.sbsa_band _ _ _ h2]
  · rw [V2.calcPH_state_mirror_v2, V2.calcPH_state_mirror_v2]
    have := V2.calcPH_sbsa_mono_acid ac av tc v w ka kb k2 k3 hac hav htc hv hvw h
    linarith
  · rw [V2.calcPH_state_mirror_v2, V2.calcPH_state_mirror_v2]
    have := V2.calcPH_sbsa_mono_base ac av tc v w ka kb k2 k3 hac hav htc hv hvw h
    linarith

/-- Witness for C7 in the acid-excess regime: 0 mL to 10 mL of 0.1 M base
into 25 mL of 0.1 M acid leaves the acid in excess, and pH does not
decrease. -/
theorem C7_regimewise_monotonicity_witness :
    V2.calcPH ⟨"strong_base_strong_acid", 0.1, 25, 0.1, 0, 0, 0, 0, 0⟩ ≤
      V2.calcPH ⟨"strong_base_strong_acid", 0.1, 25, 0.1, 10, 0, 0, 0, 0⟩ :=
  (C7_regimewise_monotonicity 0.1 25 0.1 0 10 0 0 0 0
    (by norm_num) (by norm_num) (by norm_num) (by norm_num) (by norm_num)).1
    (by norm_num)

end Titration
